import Mathlib

/-!
Verification development for the bevy_msdf crate (src/lib.rs).

The loader, asset types and layout system are translated directly from
src/lib.rs.  The atlas-generation internals live in the crate's atlas
module, which is not part of the provided sources; those definitions are
modelled from the specification (sections 4.1, 4.4, 4.6, 6, 7, 9) and are
marked as such in their doc comments.
-/

namespace BevyMsdf

/-- Glyph identifier, as in owned_ttf_parser::GlyphId (a u16 newtype). -/
structure GlyphId where
  val : Nat
deriving DecidableEq, Repr

/-- Opaque error produced by the external font parser
(owned_ttf_parser::FaceParsingError). -/
structure FaceParsingError where
  code : Nat
deriving DecidableEq, Repr

/-- Modelled from the spec: an outline's axis-aligned bounding box in font
units.  The spec's Auto-Framer only consumes the bounding box of the glyph
outline, so the outline is represented by its box; floating-point
non-finiteness of corrupt coordinate data is represented by the Boolean
field finite (false means the coordinates are not finite numbers). -/
structure Outline where
  xMin : ℚ
  yMin : ℚ
  xMax : ℚ
  yMax : ℚ
  finite : Bool
deriving DecidableEq, Repr

/-- Modelled from the spec: one entry of the font's glyph-description
table.  A malformed entry makes shape reading fail for that glyph.  The
advance is the horizontal advance metric in font units. -/
structure GlyphDesc where
  malformed : Bool
  outline : Outline
  advance : Int
deriving DecidableEq, Repr

/-- Modelled from the spec: the Font Face Accessor interface of section
4.1, wrapping a parsed font binary.  It exposes glyph-index lookup by
character (the cmap) and outline extraction by glyph index (the glyph
table). -/
structure Face where
  cmap : List (Char × Nat)
  glyphs : List GlyphDesc
deriving DecidableEq

/-- Number of glyphs in the face. -/
def Face.numGlyphs (face : Face) : Nat :=
  face.glyphs.length

/-- Character-to-glyph-index lookup over the face's cmap. -/
def Face.glyphIndex (face : Face) (c : Char) : Option Nat :=
  (face.cmap.find? (fun p => p.1 == c)).map Prod.snd

/-- Modelled from the spec: outline extraction by glyph index.  Shape
reading fails exactly when the glyph index is out of range or the
glyph-description table entry is malformed. -/
def Face.outline (face : Face) (g : Nat) : Except Unit Outline :=
  match face.glyphs.get? g with
  | none => Except.error ()
  | some d => if d.malformed then Except.error () else Except.ok d.outline

/-- Errors produced by the atlas loader, from the MsdfAtlasLoaderError
enum of src/lib.rs.  The transparent Io variant of the Rust enum wraps
reader failures that happen before the bytes are in memory and is outside
the byte-level model. -/
inductive MsdfAtlasLoaderError where
  | fontInvalid (e : FaceParsingError)
  | glyphShape (g : GlyphId)
  | autoFraming (glyph : GlyphId) (width : Nat) (height : Nat) (range : ℚ)
deriving DecidableEq, Repr

/-- Modelled from the spec: fixed cell width in pixels (the section 8
scenario uses a 32-pixel cell). -/
def cellWidth : Nat := 32

/-- Modelled from the spec: fixed cell height in pixels. -/
def cellHeight : Nat := 32

/-- Modelled from the spec: the requested distance-field range in pixels
(the section 8 scenario uses 4 pixels). -/
def pxRange : ℚ := 4

/-- Modelled from the spec: the minimal distance-field range that must
always be accommodated in a cell. -/
def minimalRange : ℚ := 1

/-- Modelled from the spec: the uniform scale required to fit the
outline's bounding box, expanded by the range on all sides, inside the
width-by-height cell. -/
def requiredScale (width height : Nat) (range : ℚ) (o : Outline) : ℚ :=
  min (((width : ℚ) - 2 * range) / (o.xMax - o.xMin))
    (((height : ℚ) - 2 * range) / (o.yMax - o.yMin))

/-- A glyph-specific frame: uniform scale plus translation mapping font
units into the pixel cell. -/
structure Frame where
  scale : ℚ
  tx : ℚ
  ty : ℚ
deriving DecidableEq, Repr

/-- Modelled from the spec: the Auto-Framer of section 4.4.  A zero-area
bounding box is a valid empty glyph (no frame, no error).  The AutoFraming
error is raised, carrying the glyph ID, cell width, cell height and range,
exactly when the required scale is non-finite (corrupt outline data) or
non-positive, or when even the minimal range cannot be accommodated in the
cell.  Otherwise the outline is scaled and centered in the cell. -/
def autoframe (glyph : GlyphId) (width height : Nat) (range : ℚ) (o : Outline) :
    Except MsdfAtlasLoaderError (Option Frame) :=
  if (o.xMax - o.xMin = 0) ∨ (o.yMax - o.yMin = 0) then
    Except.ok none
  else
    if o.finite = false ∨ requiredScale width height range o ≤ 0
        ∨ (width : ℚ) < 2 * minimalRange ∨ (height : ℚ) < 2 * minimalRange then
      Except.error (MsdfAtlasLoaderError.autoFraming glyph width height range)
    else
      Except.ok (some
        { scale := requiredScale width height range o
          tx := ((width : ℚ) - requiredScale width height range o * (o.xMax - o.xMin)) / 2
            - requiredScale width height range o * o.xMin
          ty := ((height : ℚ) - requiredScale width height range o * (o.yMax - o.yMin)) / 2
            - requiredScale width height range o * o.yMin })

/-- Modelled from the spec: a single distance sample of the rasterizer,
abstracted to the clamped signed distance from the pixel center to the
frame-transformed bounding box, remapped to the unit interval.  The claims
under verification do not depend on per-pixel values, only on the texture
being a deterministic function of the framed outline. -/
def sample (f : Frame) (o : Outline) (px py : Nat) : ℚ :=
  let fx : ℚ := ((px : ℚ) + 1 / 2 - f.tx) / f.scale
  let fy : ℚ := ((py : ℚ) + 1 / 2 - f.ty) / f.scale
  let d : ℚ := max (max (o.xMin - fx) (fx - o.xMax)) (max (o.yMin - fy) (fy - o.yMax))
  min 1 (max 0 (1 / 2 - d * f.scale / (2 * pxRange)))

/-- Modelled from the spec: the Distance Field Rasterizer output for one
glyph cell, row-major. -/
def rasterize (f : Frame) (o : Outline) : List ℚ :=
  (List.range (cellWidth * cellHeight)).map
    (fun i => sample f o (i % cellWidth) (i / cellWidth))

/-- A packed pixel rectangle inside the atlas texture. -/
structure Rect where
  x : Nat
  y : Nat
  w : Nat
  h : Nat
deriving DecidableEq, Repr

/-- Modelled from the spec: per-glyph processing, the fan-out step of
section 9: outline extraction (shape errors become GlyphShape), then
auto-framing.  An empty outline yields a valid empty glyph (none). -/
def processGlyph (face : Face) (g : Nat) :
    Except MsdfAtlasLoaderError (Option (Frame × Outline)) :=
  match face.outline g with
  | Except.error _ => Except.error (MsdfAtlasLoaderError.glyphShape ⟨g⟩)
  | Except.ok o =>
    match autoframe ⟨g⟩ cellWidth cellHeight pxRange o with
    | Except.error e => Except.error e
    | Except.ok none => Except.ok none
    | Except.ok (some fr) => Except.ok (some (fr, o))

/-- Modelled from the spec: the per-glyph results of the whole batch, in
ascending glyph-ID order. -/
def glyphResults (face : Face) :
    List (Nat × Except MsdfAtlasLoaderError (Option (Frame × Outline))) :=
  (List.range face.numGlyphs).map (fun g => (g, processGlyph face g))

/-- Modelled from the spec: the collected per-glyph generation errors. -/
def glyphErrors (face : Face) : List MsdfAtlasLoaderError :=
  (glyphResults face).filterMap (fun p =>
    match p.2 with
    | Except.error e => some e
    | Except.ok _ => none)

/-- Modelled from the spec: the successfully framed non-empty glyphs with
their frames and outlines, in ascending glyph-ID order. -/
def okCells (face : Face) : List (Nat × (Frame × Outline)) :=
  (glyphResults face).filterMap (fun p =>
    match p.2 with
    | Except.ok (some c) => some (p.1, c)
    | _ => none)

/-- Modelled from the spec: fixed-grid shelf packing, assigning the k-th
successful glyph the k-th cell-sized rectangle. -/
def packCells : Nat → List (Nat × (Frame × Outline)) → List (GlyphId × Rect)
  | _, [] => []
  | k, (g, _) :: rest =>
    (⟨g⟩, ⟨k * cellWidth, 0, cellWidth, cellHeight⟩) :: packCells (k + 1) rest

/-- Modelled from the spec: the packed atlas texture, the concatenation of
the rasterized cells in packing order. -/
def atlasTexture (face : Face) : List ℚ :=
  ((okCells face).map (fun c => rasterize c.2.1 c.2.2)).flatten

/-- Modelled from the spec: advance metrics for every glyph that produced
no error, empty glyphs included (empty glyphs have valid metrics and no
bitmap). -/
def atlasMetrics (face : Face) : List (GlyphId × Int) :=
  (glyphResults face).filterMap (fun p =>
    match p.2 with
    | Except.ok _ => (face.glyphs.get? p.1).map (fun d => (GlyphId.mk p.1, d.advance))
    | Except.error _ => none)

/-- The finished immutable atlas artifact: packed texture, packing layout
and per-glyph metrics (the GlyphAtlas of the crate's atlas module). -/
structure GlyphAtlas where
  texture : List ℚ
  packing : List (GlyphId × Rect)
  metrics : List (GlyphId × Int)
deriving DecidableEq

/-- Modelled from the spec: atlas construction, returning the successfully
built atlas together with the list of per-glyph generation errors
(sections 6 and 9: generate_atlas returns the container and the error
vector; generation is partial-failure tolerant). -/
def GlyphAtlas.new (face : Face) : GlyphAtlas × List MsdfAtlasLoaderError :=
  ({ texture := atlasTexture face
     packing := packCells 0 (okCells face)
     metrics := atlasMetrics face },
   glyphErrors face)

/-- The MsdfAtlas asset of src/lib.rs: the parsed face and the generated
atlas (the Arc wrappers of the Rust type carry no data). -/
structure MsdfAtlas where
  face : Face
  atlas : GlyphAtlas
deriving DecidableEq

/-- The asset loader of src/lib.rs (a unit struct). -/
structure MsdfAtlasLoader where
deriving DecidableEq

/-- The load operation of MsdfAtlasLoader in src/lib.rs, with the external
font parser passed explicitly (OwnedFace::from_vec).  The bytes are parsed
at face index 0; a parse failure is propagated as FontInvalid; otherwise
the atlas is generated, the per-glyph error list is discarded (the
underscore binding of the source), and the asset is returned. -/
def MsdfAtlasLoader.load
    (parse : List Nat → Nat → Except FaceParsingError Face)
    (bytes : List Nat) : Except MsdfAtlasLoaderError MsdfAtlas :=
  match parse bytes 0 with
  | Except.error e => Except.error (MsdfAtlasLoaderError.fontInvalid e)
  | Except.ok face =>
    match GlyphAtlas.new face with
    | (atlas, _glyphErrors) => Except.ok { face := face, atlas := atlas }

/-- Color of rendered text, standing in for bevy's Color value. -/
structure Color where
  val : Nat
deriving DecidableEq, Repr

/-- A two-dimensional vector, standing in for bevy's Vec2; coordinates are
exact rationals standing in for the f32 values of the source. -/
structure Vec2 where
  x : ℚ
  y : ℚ
deriving DecidableEq, Repr

/-- A handle to an MsdfAtlas asset, identified by its asset id. -/
structure Handle where
  id : Nat
deriving DecidableEq, Repr

/-- The MsdfText component of src/lib.rs: atlas handle, content and
color. -/
structure MsdfText where
  atlas : Handle
  content : List Char
  color : Color
deriving DecidableEq

/-- The MsdfGlyph instance of src/lib.rs: anchor position, color and glyph
index within the atlas. -/
structure MsdfGlyph where
  pos : Vec2
  color : Color
  index : Nat
deriving DecidableEq, Repr

/-- The MsdfDraw component of src/lib.rs: atlas handle and glyph list. -/
structure MsdfDraw where
  atlas : Handle
  glyphs : List MsdfGlyph
deriving DecidableEq

/-- One row of the layout system's query: the entity id, its MsdfText
component, and whether the component is flagged as changed this frame
(Ref::is_changed). -/
structure TextEntity where
  entity : Nat
  text : MsdfText
  changed : Bool
deriving DecidableEq

/-- Asset events for MsdfAtlas assets, from bevy's AssetEvent enum. -/
inductive AssetEvent where
  | added (id : Nat)
  | modified (id : Nat)
  | removed (id : Nat)
  | unused (id : Nat)
  | loadedWithDependencies (id : Nat)
deriving DecidableEq, Repr

/-- The set of atlas ids whose LoadedWithDependencies event fired this
frame, as collected by the layout system's filter_map over the event
reader. -/
def loadedIds (events : List AssetEvent) : List Nat :=
  events.filterMap (fun ev =>
    match ev with
    | AssetEvent.loadedWithDependencies id => some id
    | _ => none)

/-- One step of the character loop of the layout system: push a glyph at
the current cursor when the face maps the character to a glyph index, and
advance the cursor by 0.7 either way. -/
def layoutStep (glyphIndex : Char → Option Nat) (color : Color)
    (acc : List MsdfGlyph × ℚ) (c : Char) : List MsdfGlyph × ℚ :=
  (match glyphIndex c with
   | some g => acc.1 ++ [{ pos := ⟨acc.2, 0⟩, color := color, index := g }]
   | none => acc.1,
   acc.2 + 7 / 10)

/-- The body of the layout system for one text entity whose atlas is
available: run the character loop from cursor 0, then shift every glyph
left by half the final cursor. -/
def layoutText (face : Face) (text : MsdfText) : MsdfDraw :=
  let r := text.content.foldl (layoutStep face.glyphIndex text.color) ([], 0)
  { atlas := text.atlas
    glyphs := r.1.map (fun g => { g with pos := { g.pos with x := g.pos.x - r.2 / 2 } }) }

/-- The per-entity behavior of the layout system of src/lib.rs: skip the
entity when its text is unchanged and its atlas did not just finish
loading, skip it when the atlas asset is unavailable, and otherwise insert
a freshly laid out MsdfDraw. -/
def layoutEntity (loaded : List Nat) (atlases : Nat → Option MsdfAtlas)
    (te : TextEntity) : Option (Nat × MsdfDraw) :=
  if te.changed = false ∧ te.text.atlas.id ∉ loaded then none
  else
    match atlases te.text.atlas.id with
    | none => none
    | some atlas => some (te.entity, layoutText atlas.face te.text)

/-- The layout system of src/lib.rs: the list of (entity, MsdfDraw)
insertions performed in one frame. -/
def layout (events : List AssetEvent) (texts : List TextEntity)
    (atlases : Nat → Option MsdfAtlas) : List (Nat × MsdfDraw) :=
  texts.filterMap (layoutEntity (loadedIds events) atlases)

/-- Spec-side reading of claim C1: the only error values present in the
value the caller of load receives are the fatal error of the error
case; the success value, MsdfAtlas, carries no error list. -/
def errorsInLoadResult : Except MsdfAtlasLoaderError MsdfAtlas → List MsdfAtlasLoaderError
  | Except.error e => [e]
  | Except.ok _ => []

/-- Spec-side reading of claim C1, following the spec's words: every
per-glyph generation error produced while building the atlas appears in
the value the caller of the load operation receives. -/
def loadSurfacesGlyphErrors
    (parse : List Nat → Nat → Except FaceParsingError Face)
    (bytes : List Nat) : Prop :=
  ∀ face, parse bytes 0 = Except.ok face →
    ∀ e ∈ (GlyphAtlas.new face).2,
      e ∈ errorsInLoadResult (MsdfAtlasLoader.load parse bytes)

/-- A well-formed glyph used in concrete instances: a 100 by 100 box. -/
def goodGlyph : GlyphDesc :=
  { malformed := false, outline := ⟨0, 0, 100, 100, true⟩, advance := 10 }

/-- A malformed glyph-table entry used in concrete instances. -/
def badGlyph : GlyphDesc :=
  { malformed := true, outline := ⟨0, 0, 0, 0, true⟩, advance := 0 }

/-- A corrupt outline with non-finite coordinate data, used in concrete
instances. -/
def corruptOutline : Outline := ⟨0, 0, 100, 100, false⟩

/-- A concrete face with one renderable glyph, mapped from the character
a, and one malformed glyph. -/
def faceA : Face := { cmap := [('a', 0)], glyphs := [goodGlyph, badGlyph] }

/-- A concrete face with no glyphs at all. -/
def faceB : Face := { cmap := [], glyphs := [] }

/-- A concrete parser accepting only the byte sequence 1 at face index
0. -/
def parseA : List Nat → Nat → Except FaceParsingError Face
  | [1], 0 => Except.ok faceA
  | _, _ => Except.error ⟨0⟩

/-- A parser agreeing with parseA at face index 0 but differing from it at
every non-zero face index. -/
def parseD : List Nat → Nat → Except FaceParsingError Face
  | bs, 0 => parseA bs 0
  | _, _ => Except.ok faceB

/-- A parser that rejects every byte sequence. -/
def parseFail : List Nat → Nat → Except FaceParsingError Face :=
  fun _ _ => Except.error ⟨3⟩

/-- A concrete color value. -/
def colorA : Color := ⟨1⟩

/-- The asset built from faceA. -/
def atlasA : MsdfAtlas := ⟨faceA, (GlyphAtlas.new faceA).1⟩

/-- A concrete asset store holding atlasA under asset id 5. -/
def atlasesA : Nat → Option MsdfAtlas :=
  fun n => if n = 5 then some atlasA else none

/-- A changed text entity referencing asset id 5 with content a. -/
def teA : TextEntity := ⟨0, ⟨⟨5⟩, ['a'], colorA⟩, true⟩

/-- An unchanged text entity referencing asset id 5. -/
def teB : TextEntity := ⟨1, ⟨⟨5⟩, ['a'], colorA⟩, false⟩

/-- Spec-side closed form of the character loop of the layout system: the
glyphs emitted for a character list starting at a given cursor value. -/
def emitGlyphs (glyphIndex : Char → Option Nat) (color : Color) :
    ℚ → List Char → List MsdfGlyph
  | _, [] => []
  | cur, c :: cs =>
    (match glyphIndex c with
     | some g => [{ pos := ⟨cur, 0⟩, color := color, index := g }]
     | none => []) ++ emitGlyphs glyphIndex color (cur + 7 / 10) cs

theorem layout_foldl (glyphIndex : Char → Option Nat) (color : Color) :
    ∀ (cs : List Char) (acc : List MsdfGlyph) (cur : ℚ),
      cs.foldl (layoutStep glyphIndex color) (acc, cur)
        = (acc ++ emitGlyphs glyphIndex color cur cs,
           cur + 7 / 10 * cs.length) := by
  intro cs
  induction cs with
  | nil => intro acc cur; simp [emitGlyphs]
  | cons c cs ih =>
    intro acc cur
    have harith : cur + 7 / 10 + 7 / 10 * (cs.length : ℚ)
        = cur + 7 / 10 * ((cs.length : ℚ) + 1) := by ring
    cases hgc : glyphIndex c with
    | some g =>
      simp only [List.foldl_cons, layoutStep, hgc, ih, emitGlyphs,
        List.length_cons, List.append_assoc, List.singleton_append]
      rw [harith]
      push_cast
      simp
    | none =>
      simp only [List.foldl_cons, layoutStep, hgc, ih, emitGlyphs,
        List.length_cons, List.nil_append]
      rw [harith]
      push_cast
      simp

theorem emitGlyphs_mem (glyphIndex : Char → Option Nat) (color : Color) :
    ∀ (cs : List Char) (cur : ℚ) (k : Nat) (hk : k < cs.length) (g : Nat),
      glyphIndex (cs.get ⟨k, hk⟩) = some g →
      MsdfGlyph.mk ⟨cur + 7 / 10 * k, 0⟩ color g
        ∈ emitGlyphs glyphIndex color cur cs := by
  intro cs
  induction cs with
  | nil => intro cur k hk; exact absurd hk (Nat.not_lt_zero k)
  | cons c cs ih =>
    intro cur k hk g hg
    cases k with
    | zero =>
      simp only [List.get] at hg
      simp only [emitGlyphs, hg, Nat.cast_zero, mul_zero, add_zero,
        List.singleton_append]
      exact List.mem_cons_self _ _
    | succ k =>
      have hk2 : k < cs.length := Nat.lt_of_succ_lt_succ hk
      have hg2 : glyphIndex (cs.get ⟨k, hk2⟩) = some g := hg
      have hmem := ih (cur + 7 / 10) k hk2 g hg2
      have harith : cur + 7 / 10 + 7 / 10 * (k : ℚ)
          = cur + 7 / 10 * ((k : ℚ) + 1) := by ring
      rw [harith] at hmem
      have : ((k : ℚ) + 1) = ((k + 1 : Nat) : ℚ) := by push_cast; ring
      rw [this] at hmem
      cases hgc : glyphIndex c with
      | some g2 =>
        simp only [emitGlyphs, hgc, List.singleton_append]
        exact List.mem_cons_of_mem _ hmem
      | none =>
        simp only [emitGlyphs, hgc, List.nil_append]
        exact hmem

theorem emitGlyphs_proj (glyphIndex : Char → Option Nat) (color : Color) :
    ∀ (cs : List Char) (cur : ℚ),
      (emitGlyphs glyphIndex color cur cs).map (fun g => (g.index, g.color))
        = cs.filterMap (fun c => (glyphIndex c).map (fun i => (i, color))) := by
  intro cs
  induction cs with
  | nil => intro cur; rfl
  | cons c cs ih =>
    intro cur
    cases hgc : glyphIndex c with
    | some g =>
      simp only [emitGlyphs, hgc, List.singleton_append, List.map_cons, ih,
        List.filterMap_cons]
      simp [hgc]
    | none =>
      simp only [emitGlyphs, hgc, List.nil_append, ih, List.filterMap_cons]
      simp [hgc]

theorem layoutText_glyphs (face : Face) (text : MsdfText) :
    (layoutText face text).glyphs
      = (emitGlyphs face.glyphIndex text.color 0 text.content).map
          (fun g => { g with
            pos := { g.pos with
              x := g.pos.x - 7 / 10 * (text.content.length : ℚ) / 2 } }) := by
  unfold layoutText
  rw [layout_foldl]
  simp

theorem layoutText_atlas (face : Face) (text : MsdfText) :
    (layoutText face text).atlas = text.atlas := rfl

theorem layoutEntity_some {loaded : List Nat} {atlases : Nat → Option MsdfAtlas}
    {te : TextEntity} {ent : Nat} {draw : MsdfDraw} {atlas : MsdfAtlas}
    (ha : atlases te.text.atlas.id = some atlas)
    (h : layoutEntity loaded atlases te = some (ent, draw)) :
    ent = te.entity ∧ draw = layoutText atlas.face te.text := by
  unfold layoutEntity at h
  by_cases hskip : te.changed = false ∧ te.text.atlas.id ∉ loaded
  · rw [if_pos hskip] at h
    exact Option.noConfusion h
  · rw [if_neg hskip, ha] at h
    simp only [Option.some.injEq, Prod.mk.injEq] at h
    exact ⟨h.1.symm, h.2.symm⟩

theorem mem_glyphResults {face : Face} {g : Nat}
    {r : Except MsdfAtlasLoaderError (Option (Frame × Outline))} :
    (g, r) ∈ glyphResults face ↔ g < face.numGlyphs ∧ r = processGlyph face g := by
  simp only [glyphResults, List.mem_map, List.mem_range, Prod.mk.injEq]
  constructor
  · rintro ⟨a, ha, rfl, rfl⟩
    exact ⟨ha, rfl⟩
  · rintro ⟨hg, rfl⟩
    exact ⟨g, hg, rfl, rfl⟩

theorem mem_glyphErrors {face : Face} {e : MsdfAtlasLoaderError} :
    e ∈ glyphErrors face ↔
      ∃ g, g < face.numGlyphs ∧ processGlyph face g = Except.error e := by
  simp only [glyphErrors, List.mem_filterMap]
  constructor
  · rintro ⟨⟨g, r⟩, hmem, hmatch⟩
    rcases mem_glyphResults.mp hmem with ⟨hg, rfl⟩
    refine ⟨g, hg, ?_⟩
    revert hmatch
    cases processGlyph face g with
    | error e2 =>
      intro hmatch
      simp only [Option.some.injEq] at hmatch
      rw [hmatch]
    | ok v => intro hmatch; exact Option.noConfusion hmatch
  · rintro ⟨g, hg, he⟩
    exact ⟨(g, processGlyph face g), mem_glyphResults.mpr ⟨hg, rfl⟩, by rw [he]⟩

theorem mem_okCells {face : Face} {g : Nat} {c : Frame × Outline} :
    (g, c) ∈ okCells face ↔
      g < face.numGlyphs ∧ processGlyph face g = Except.ok (some c) := by
  simp only [okCells, List.mem_filterMap]
  constructor
  · rintro ⟨⟨a, r⟩, hmem, hmatch⟩
    rcases mem_glyphResults.mp hmem with ⟨ha, rfl⟩
    revert hmatch
    cases hr : processGlyph face a with
    | error e => intro hmatch; exact Option.noConfusion hmatch
    | ok v =>
      cases v with
      | none => intro hmatch; exact Option.noConfusion hmatch
      | some c2 =>
        intro hmatch
        simp only [Option.some.injEq, Prod.mk.injEq] at hmatch
        rcases hmatch with ⟨rfl, rfl⟩
        exact ⟨ha, hr⟩
  · rintro ⟨hg, he⟩
    exact ⟨(g, processGlyph face g), mem_glyphResults.mpr ⟨hg, rfl⟩, by rw [he]⟩

theorem packCells_mem_of_mem :
    ∀ (l : List (Nat × (Frame × Outline))) (k g : Nat) (c : Frame × Outline),
      (g, c) ∈ l → ∃ r, (GlyphId.mk g, r) ∈ packCells k l := by
  intro l
  induction l with
  | nil => intro k g c h; exact absurd h (List.not_mem_nil _)
  | cons hd tl ih =>
    intro k g c h
    rcases List.mem_cons.mp h with h | h
    · refine ⟨⟨k * cellWidth, 0, cellWidth, cellHeight⟩, ?_⟩
      rw [← h]
      exact List.mem_cons_self _ _
    · rcases ih (k + 1) g c h with ⟨r, hr⟩
      rcases hd with ⟨g2, c2⟩
      exact ⟨r, List.mem_cons_of_mem _ hr⟩

theorem packCells_mem_inv :
    ∀ (l : List (Nat × (Frame × Outline))) (k g : Nat) (r : Rect),
      (GlyphId.mk g, r) ∈ packCells k l → ∃ c, (g, c) ∈ l := by
  intro l
  induction l with
  | nil => intro k g r h; exact absurd h (List.not_mem_nil _)
  | cons hd tl ih =>
    intro k g r h
    rcases hd with ⟨g2, c2⟩
    rcases List.mem_cons.mp h with h | h
    · simp only [Prod.mk.injEq, GlyphId.mk.injEq] at h
      rcases h with ⟨rfl, -⟩
      exact ⟨c2, List.mem_cons_self _ _⟩
    · rcases ih (k + 1) g r h with ⟨c, hc⟩
      exact ⟨c, List.mem_cons_of_mem _ hc⟩

theorem packed_of_ok {face : Face} {g : Nat} {c : Frame × Outline}
    (hg : g < face.numGlyphs) (h : processGlyph face g = Except.ok (some c)) :
    ∃ r, (GlyphId.mk g, r) ∈ (GlyphAtlas.new face).1.packing :=
  packCells_mem_of_mem (okCells face) 0 g c (mem_okCells.mpr ⟨hg, h⟩)

theorem error_mem_glyphErrors {face : Face} {g : Nat} {e : MsdfAtlasLoaderError}
    (hg : g < face.numGlyphs) (h : processGlyph face g = Except.error e) :
    e ∈ (GlyphAtlas.new face).2 :=
  mem_glyphErrors.mpr ⟨g, hg, h⟩

theorem not_packed_of_error {face : Face} {g : Nat} {e : MsdfAtlasLoaderError}
    (h : processGlyph face g = Except.error e) :
    ∀ r, (GlyphId.mk g, r) ∉ (GlyphAtlas.new face).1.packing := by
  intro r hr
  rcases packCells_mem_inv (okCells face) 0 g r hr with ⟨c, hc⟩
  rcases mem_okCells.mp hc with ⟨-, hok⟩
  rw [h] at hok
  exact Except.noConfusion hok

theorem not_metric_of_error {face : Face} {g : Nat} {e : MsdfAtlasLoaderError}
    (h : processGlyph face g = Except.error e) :
    ∀ a, (GlyphId.mk g, a) ∉ (GlyphAtlas.new face).1.metrics := by
  intro a ha
  rcases List.mem_filterMap.mp ha with ⟨⟨g2, r⟩, hmem, hmatch⟩
  rcases mem_glyphResults.mp hmem with ⟨-, rfl⟩
  revert hmatch
  cases hr : processGlyph face g2 with
  | error e2 => intro hmatch; exact Option.noConfusion hmatch
  | ok v =>
    intro hmatch
    rcases Option.map_eq_some'.mp hmatch with ⟨d, -, hd⟩
    simp only [Prod.mk.injEq, GlyphId.mk.injEq] at hd
    rcases hd with ⟨rfl, -⟩
    rw [h] at hr
    exact Except.noConfusion hr

/-- Claim C1, counterexample: it is not the case that every per-glyph
generation error produced while building the atlas appears in the value
the caller of the load operation receives; for the concrete font faceA the
generation errors contain the shape error for glyph 1, but the load result
is a plain ok value carrying no error at all (the source binds the error
list to an underscore and drops it). -/
theorem c1_counterexample : ¬ loadSurfacesGlyphErrors parseA [1] := by
  intro h
  have hp : processGlyph faceA 1
      = Except.error (MsdfAtlasLoaderError.glyphShape ⟨1⟩) := rfl
  have hg : (1 : Nat) < faceA.numGlyphs := by decide
  have hm := h faceA rfl (MsdfAtlasLoaderError.glyphShape ⟨1⟩)
    (error_mem_glyphErrors hg hp)
  have hload : MsdfAtlasLoader.load parseA [1]
      = Except.ok (MsdfAtlas.mk faceA (GlyphAtlas.new faceA).1) := rfl
  rw [hload] at hm
  simp only [errorsInLoadResult] at hm
  exact absurd hm (List.not_mem_nil _)

/-- Claim C1 (amended): when parsing succeeds, atlas construction hands
the load operation the successfully built atlas together with the list of
per-glyph generation errors, but load returns only the face and the atlas,
discarding the error list, so the caller receives no per-glyph errors; a
font whose generation yields some per-glyph errors still yields a usable
atlas in which every successfully framed glyph is packed. -/
theorem c1_load_discards_glyph_errors
    (parse : List Nat → Nat → Except FaceParsingError Face)
    (bytes : List Nat) (face : Face)
    (h : parse bytes 0 = Except.ok face) :
    MsdfAtlasLoader.load parse bytes
        = Except.ok (MsdfAtlas.mk face (GlyphAtlas.new face).1)
      ∧ errorsInLoadResult (MsdfAtlasLoader.load parse bytes) = []
      ∧ (∀ g c, g < face.numGlyphs → processGlyph face g = Except.ok (some c) →
          ∃ r, (GlyphId.mk g, r) ∈ (GlyphAtlas.new face).1.packing) := by
  have hload : MsdfAtlasLoader.load parse bytes
      = Except.ok (MsdfAtlas.mk face (GlyphAtlas.new face).1) := by
    unfold MsdfAtlasLoader.load
    rw [h]
  refine ⟨hload, ?_, ?_⟩
  · rw [hload]
    rfl
  · intro g c hg hok
    exact packed_of_ok hg hok

/-- Concrete instance of the amended claim C1 at the font faceA. -/
theorem c1_witness :
    MsdfAtlasLoader.load parseA [1]
        = Except.ok (MsdfAtlas.mk faceA (GlyphAtlas.new faceA).1)
      ∧ errorsInLoadResult (MsdfAtlasLoader.load parseA [1]) = []
      ∧ (∀ g c, g < faceA.numGlyphs → processGlyph faceA g = Except.ok (some c) →
          ∃ r, (GlyphId.mk g, r) ∈ (GlyphAtlas.new faceA).1.packing) :=
  c1_load_discards_glyph_errors parseA [1] faceA rfl

/-- Claim C2: whenever the input bytes cannot be parsed as a font face,
the load operation returns the parse failure wrapped as FontInvalid and
produces no atlas asset, not even a partial one. -/
theorem c2_font_invalid_propagates
    (parse : List Nat → Nat → Except FaceParsingError Face)
    (bytes : List Nat) (e : FaceParsingError)
    (h : parse bytes 0 = Except.error e) :
    MsdfAtlasLoader.load parse bytes
        = Except.error (MsdfAtlasLoaderError.fontInvalid e)
      ∧ ∀ a, MsdfAtlasLoader.load parse bytes ≠ Except.ok a := by
  have hload : MsdfAtlasLoader.load parse bytes
      = Except.error (MsdfAtlasLoaderError.fontInvalid e) := by
    unfold MsdfAtlasLoader.load
    rw [h]
  refine ⟨hload, fun a h2 => ?_⟩
  rw [hload] at h2
  exact Except.noConfusion h2

/-- Concrete instance of claim C2 at an always-failing parse. -/
theorem c2_witness :
    MsdfAtlasLoader.load parseFail [0]
        = Except.error (MsdfAtlasLoaderError.fontInvalid ⟨3⟩)
      ∧ ∀ a, MsdfAtlasLoader.load parseFail [0] ≠ Except.ok a :=
  c2_font_invalid_propagates parseFail [0] ⟨3⟩ rfl

/-- Claim C3: atlas generation is deterministic; two runs of the load
operation on identical input bytes yield identical texture data and an
identical packing layout. -/
theorem c3_load_deterministic
    (parse : List Nat → Nat → Except FaceParsingError Face)
    (bytes : List Nat) (a b : MsdfAtlas)
    (ha : MsdfAtlasLoader.load parse bytes = Except.ok a)
    (hb : MsdfAtlasLoader.load parse bytes = Except.ok b) :
    a.atlas.texture = b.atlas.texture ∧ a.atlas.packing = b.atlas.packing := by
  rw [ha] at hb
  injection hb with hab
  rw [hab]
  exact ⟨rfl, rfl⟩

/-- Concrete instance of claim C3 at the font faceA. -/
theorem c3_witness :
    (MsdfAtlas.mk faceA (GlyphAtlas.new faceA).1).atlas.texture
        = (MsdfAtlas.mk faceA (GlyphAtlas.new faceA).1).atlas.texture
      ∧ (MsdfAtlas.mk faceA (GlyphAtlas.new faceA).1).atlas.packing
        = (MsdfAtlas.mk faceA (GlyphAtlas.new faceA).1).atlas.packing :=
  c3_load_deterministic parseA [1]
    (MsdfAtlas.mk faceA (GlyphAtlas.new faceA).1)
    (MsdfAtlas.mk faceA (GlyphAtlas.new faceA).1) rfl rfl

/-- Claim C6: the load operation consults the font parser only at face
index 0; any two parsers agreeing on index 0 make load produce the same
result, so no other face index of a multi-face container is ever
selected. -/
theorem c6_load_face_index_zero_only
    (p1 p2 : List Nat → Nat → Except FaceParsingError Face)
    (bytes : List Nat) (h : p1 bytes 0 = p2 bytes 0) :
    MsdfAtlasLoader.load p1 bytes = MsdfAtlasLoader.load p2 bytes := by
  unfold MsdfAtlasLoader.load
  rw [h]

/-- Concrete instance of claim C6: parseA and parseD differ at face index
1 but agree at index 0, and load cannot tell them apart. -/
theorem c6_witness :
    parseA [1] 0 = parseD [1] 0
      ∧ MsdfAtlasLoader.load parseA [1] = MsdfAtlasLoader.load parseD [1] :=
  ⟨rfl, c6_load_face_index_zero_only parseA parseD [1] rfl⟩

/-- Claim C4: the auto-framer reports a failure exactly when the glyph has
a non-degenerate bounding box and either the required scale at the
requested range is non-finite (corrupt outline data) or non-positive, or
even the minimal range cannot be accommodated in the cell; the failure is
the AutoFraming error carrying the glyph ID, cell width, cell height and
range, it is the only error the auto-framer ever produces, and within a
batch it excludes only the offending glyph: the error is recorded, the
glyph is not packed, and every successfully framed glyph still receives a
rectangle. -/
theorem c4_autoframing_characterization (g width height : Nat) (range : ℚ)
    (o : Outline) :
    (autoframe ⟨g⟩ width height range o
        = Except.error (MsdfAtlasLoaderError.autoFraming ⟨g⟩ width height range)
      ↔ (o.xMax - o.xMin ≠ 0 ∧ o.yMax - o.yMin ≠ 0
          ∧ (o.finite = false ∨ requiredScale width height range o ≤ 0
              ∨ (width : ℚ) < 2 * minimalRange
              ∨ (height : ℚ) < 2 * minimalRange)))
    ∧ (∀ e, autoframe ⟨g⟩ width height range o = Except.error e
        → e = MsdfAtlasLoaderError.autoFraming ⟨g⟩ width height range)
    ∧ (∀ (face : Face) (g1 : Nat) (e : MsdfAtlasLoaderError),
        g1 < face.numGlyphs → processGlyph face g1 = Except.error e →
          e ∈ (GlyphAtlas.new face).2
          ∧ (∀ r, (GlyphId.mk g1, r) ∉ (GlyphAtlas.new face).1.packing)
          ∧ ∀ g2 c, g2 < face.numGlyphs →
              processGlyph face g2 = Except.ok (some c) →
              ∃ r, (GlyphId.mk g2, r) ∈ (GlyphAtlas.new face).1.packing) := by
  refine ⟨?_, ?_, ?_⟩
  · unfold autoframe
    by_cases h1 : o.xMax - o.xMin = 0 ∨ o.yMax - o.yMin = 0
    · rw [if_pos h1]
      constructor
      · intro hh
        exact Except.noConfusion hh
      · rintro ⟨hx, hy, -⟩
        rcases h1 with h | h
        · exact absurd h hx
        · exact absurd h hy
    · rw [if_neg h1]
      push_neg at h1
      by_cases h2 : o.finite = false ∨ requiredScale width height range o ≤ 0
          ∨ (width : ℚ) < 2 * minimalRange ∨ (height : ℚ) < 2 * minimalRange
      · rw [if_pos h2]
        exact ⟨fun _ => ⟨h1.1, h1.2, h2⟩, fun _ => rfl⟩
      · rw [if_neg h2]
        constructor
        · intro hh
          exact Except.noConfusion hh
        · rintro ⟨-, -, hd⟩
          exact absurd hd h2
  · intro e
    unfold autoframe
    by_cases h1 : o.xMax - o.xMin = 0 ∨ o.yMax - o.yMin = 0
    · rw [if_pos h1]
      intro hh
      exact Except.noConfusion hh
    · rw [if_neg h1]
      by_cases h2 : o.finite = false ∨ requiredScale width height range o ≤ 0
          ∨ (width : ℚ) < 2 * minimalRange ∨ (height : ℚ) < 2 * minimalRange
      · rw [if_pos h2]
        intro hh
        injection hh with hh
        exact hh.symm
      · rw [if_neg h2]
        intro hh
        exact Except.noConfusion hh
  · intro face g1 e hg1 herr
    exact ⟨error_mem_glyphErrors hg1 herr, not_packed_of_error herr,
      fun g2 c hg2 hok => packed_of_ok hg2 hok⟩

/-- Concrete instance of claim C4: a corrupt outline with non-finite
coordinate data is rejected with the AutoFraming error carrying the glyph
ID, the 32 by 32 cell and the range 4. -/
theorem c4_witness :
    autoframe ⟨7⟩ 32 32 4 corruptOutline
      = Except.error (MsdfAtlasLoaderError.autoFraming ⟨7⟩ 32 32 4) :=
  (c4_autoframing_characterization 7 32 32 4 corruptOutline).1.mpr
    (by simp [corruptOutline])

/-- Claim C5: a glyph whose outline cannot be read is reported as the
GlyphShape error carrying that glyph's ID, the glyph is skipped (it is
neither packed nor given metrics), and generation of the remaining glyphs
continues: every successfully framed glyph still receives a rectangle in
the atlas. -/
theorem c5_glyph_shape_skips_glyph (face : Face) (g : Nat)
    (hg : g < face.numGlyphs) (herr : face.outline g = Except.error ()) :
    MsdfAtlasLoaderError.glyphShape ⟨g⟩ ∈ (GlyphAtlas.new face).2
      ∧ (∀ r, (GlyphId.mk g, r) ∉ (GlyphAtlas.new face).1.packing)
      ∧ (∀ a, (GlyphId.mk g, a) ∉ (GlyphAtlas.new face).1.metrics)
      ∧ ∀ g2 c, g2 < face.numGlyphs →
          processGlyph face g2 = Except.ok (some c) →
          ∃ r, (GlyphId.mk g2, r) ∈ (GlyphAtlas.new face).1.packing := by
  have hp : processGlyph face g
      = Except.error (MsdfAtlasLoaderError.glyphShape ⟨g⟩) := by
    unfold processGlyph
    rw [herr]
  exact ⟨error_mem_glyphErrors hg hp, not_packed_of_error hp,
    not_metric_of_error hp, fun g2 c hg2 hok => packed_of_ok hg2 hok⟩

/-- Concrete instance of claim C5 at the font faceA, whose glyph 1 is
malformed. -/
theorem c5_witness :
    MsdfAtlasLoaderError.glyphShape ⟨1⟩ ∈ (GlyphAtlas.new faceA).2
      ∧ (∀ r, (GlyphId.mk 1, r) ∉ (GlyphAtlas.new faceA).1.packing)
      ∧ (∀ a, (GlyphId.mk 1, a) ∉ (GlyphAtlas.new faceA).1.metrics)
      ∧ ∀ g2 c, g2 < faceA.numGlyphs →
          processGlyph faceA g2 = Except.ok (some c) →
          ∃ r, (GlyphId.mk g2, r) ∈ (GlyphAtlas.new faceA).1.packing :=
  c5_glyph_shape_skips_glyph faceA 1 (by decide) rfl

/-- Claim C8: for a text entity the layout system processes with its atlas
available, the glyph produced for the k-th character (counting all
characters) is placed at x equal to 0.7 times k minus 0.35 times the total
character count, and y equal to 0: the cursor advances by exactly 0.7 per
character whether or not the character maps to a glyph, and every glyph is
then shifted left by half the final cursor. -/
theorem c8_layout_positions (loaded : List Nat)
    (atlases : Nat → Option MsdfAtlas) (te : TextEntity) (ent : Nat)
    (draw : MsdfDraw) (atlas : MsdfAtlas)
    (ha : atlases te.text.atlas.id = some atlas)
    (h : layoutEntity loaded atlases te = some (ent, draw))
    (k : Nat) (hk : k < te.text.content.length) (g : Nat)
    (hg : atlas.face.glyphIndex (te.text.content.get ⟨k, hk⟩) = some g) :
    MsdfGlyph.mk
        ⟨7 / 10 * (k : ℚ) - 7 / 20 * (te.text.content.length : ℚ), 0⟩
        te.text.color g
      ∈ draw.glyphs := by
  rcases layoutEntity_some ha h with ⟨-, rfl⟩
  rw [layoutText_glyphs]
  have hmem := emitGlyphs_mem atlas.face.glyphIndex te.text.color
    te.text.content 0 k hk g hg
  refine List.mem_map.mpr
    ⟨MsdfGlyph.mk ⟨0 + 7 / 10 * (k : ℚ), 0⟩ te.text.color g, hmem, ?_⟩
  show MsdfGlyph.mk
      ⟨0 + 7 / 10 * (k : ℚ) - 7 / 10 * (te.text.content.length : ℚ) / 2, 0⟩
      te.text.color g = _
  have harith : 0 + 7 / 10 * (k : ℚ) - 7 / 10 * (te.text.content.length : ℚ) / 2
      = 7 / 10 * (k : ℚ) - 7 / 20 * (te.text.content.length : ℚ) := by ring
  rw [harith]

/-- Concrete instance of claim C8: the single character of teA yields a
glyph at x equal to minus 0.35 and y equal to 0. -/
theorem c8_witness :
    MsdfGlyph.mk
        ⟨7 / 10 * ((0 : Nat) : ℚ) - 7 / 20 * ((teA.text.content.length : Nat) : ℚ), 0⟩
        teA.text.color 0
      ∈ (layoutText atlasA.face teA.text).glyphs :=
  c8_layout_positions [] atlasesA teA teA.entity
    (layoutText atlasA.face teA.text) atlasA rfl rfl 0 (by decide) 0 rfl

/-- Claim C9: for a text entity the layout system processes with its atlas
available, a character contributes a glyph exactly when the face's
glyph-index lookup returns some index for it; each contributed glyph
carries that index and the text's color, the glyphs appear in content
order, and the draw uses the text's atlas handle. -/
theorem c9_layout_glyph_selection (loaded : List Nat)
    (atlases : Nat → Option MsdfAtlas) (te : TextEntity) (ent : Nat)
    (draw : MsdfDraw) (atlas : MsdfAtlas)
    (ha : atlases te.text.atlas.id = some atlas)
    (h : layoutEntity loaded atlases te = some (ent, draw)) :
    draw.atlas = te.text.atlas
      ∧ draw.glyphs.map (fun gl => (gl.index, gl.color))
          = te.text.content.filterMap
              (fun c => (atlas.face.glyphIndex c).map
                (fun i => (i, te.text.color))) := by
  rcases layoutEntity_some ha h with ⟨-, rfl⟩
  refine ⟨layoutText_atlas _ _, ?_⟩
  rw [layoutText_glyphs, List.map_map]
  have hcomp : ((fun gl : MsdfGlyph => (gl.index, gl.color))
        ∘ (fun g : MsdfGlyph => { g with
            pos := { g.pos with
              x := g.pos.x - 7 / 10 * (te.text.content.length : ℚ) / 2 } }))
      = (fun gl : MsdfGlyph => (gl.index, gl.color)) := by
    funext gl
    rfl
  rw [hcomp]
  exact emitGlyphs_proj atlas.face.glyphIndex te.text.color te.text.content 0

/-- Concrete instance of claim C9 at the entity teA. -/
theorem c9_witness :
    (layoutText atlasA.face teA.text).atlas = teA.text.atlas
      ∧ (layoutText atlasA.face teA.text).glyphs.map
            (fun gl => (gl.index, gl.color))
          = teA.text.content.filterMap
              (fun c => (atlasA.face.glyphIndex c).map
                (fun i => (i, teA.text.color))) :=
  c9_layout_glyph_selection [] atlasesA teA teA.entity
    (layoutText atlasA.face teA.text) atlasA rfl rfl

/-- Claim C10: the layout system inserts no draw component for an entity
whose text is unchanged and whose atlas is not among the atlases whose
LoadedWithDependencies event fired this frame, and likewise for an entity
whose atlas asset is unavailable in the asset store. -/
theorem c10_layout_skips_entities (events : List AssetEvent)
    (atlases : Nat → Option MsdfAtlas) (te : TextEntity) :
    (te.changed = false ∧ te.text.atlas.id ∉ loadedIds events →
      layoutEntity (loadedIds events) atlases te = none)
    ∧ (atlases te.text.atlas.id = none →
      layoutEntity (loadedIds events) atlases te = none) := by
  constructor
  · intro hcond
    unfold layoutEntity
    rw [if_pos hcond]
  · intro hnone
    unfold layoutEntity
    by_cases hskip : te.changed = false ∧ te.text.atlas.id ∉ loadedIds events
    · rw [if_pos hskip]
    · rw [if_neg hskip, hnone]

/-- Concrete instance of claim C10: the unchanged entity teB is skipped in
a frame whose only atlas event is an Added event. -/
theorem c10_witness :
    layoutEntity (loadedIds [AssetEvent.added 5]) atlasesA teB = none :=
  (c10_layout_skips_entities [AssetEvent.added 5] atlasesA teB).1
    ⟨rfl, by decide⟩

end BevyMsdf
